import Mathlib

/-!
Shallow embedding of `server/server.py` from the blacklist_server repository.

The embedding models:
- JSON values exchanged over the HTTP surface;
- the module-level mutable state (`auto_update_interval`, `auto_update_event`,
  `stop_event`) together with the ledger record store behind `blacklist.py`
  (the latter is external to `src/` and is modelled from the spec);
- the three request handlers `do_GET`, `do_POST`, `do_DELETE` of
  `SimpleRESTHandler` as pure functions from a request and a state to a
  response and a new state;
- the scheduler loop `periodic_update` as a run phase and a wait step.
-/

namespace BlacklistServer

/-- JSON values, as produced by `json.loads` and consumed by `json.dumps`.
Numbers are modelled as rationals, which covers every decimal literal a JSON
body can carry without resorting to floating point. -/
inductive Json where
  | null : Json
  | bool (b : Bool) : Json
  | num (q : ℚ) : Json
  | str (s : String) : Json
  | arr (l : List Json) : Json
  | obj (l : List (String × Json)) : Json

/-- A ledger attack record, i.e. a Python dict as returned by
`get_blacklist()`: an association list of string keys to JSON values. -/
abbrev Rec := List (String × Json)

/-- Python `d[k]` / `d.get(k)` lookup on a dict modelled as an association
list (keys are unique in a Python dict; lookup takes the first match). -/
def dictGet (l : Rec) (k : String) : Option Json :=
  (l.find? (fun p => p.1 == k)).map Prod.snd

/-- Python `data.get(k, dflt)` on an arbitrary JSON value: succeeds only when
`data` is a dict, otherwise the attribute access raises (modelled as `none`). -/
def pyGetD (data : Json) (k : String) (dflt : Json) : Option Json :=
  match data with
  | Json.obj l => some ((dictGet l k).getD dflt)
  | _ => none

/-- Python truthiness on JSON values: `None`, `False`, `0`, the empty string,
the empty list and the empty dict are falsy; everything else is truthy. -/
def Json.falsy : Json → Bool
  | Json.null => true
  | Json.bool b => !b
  | Json.num q => q == 0
  | Json.str s => s.isEmpty
  | Json.arr l => l.isEmpty
  | Json.obj l => l.isEmpty

/-- Truncation of a rational toward zero, matching Python `int(float)`. -/
def ratTrunc (q : ℚ) : ℤ :=
  Int.tdiv q.num (q.den : ℤ)

/-- Digits of a decimal string to a natural number; `none` unless the string
is nonempty and all digits. -/
def parseDigits (cs : List Char) : Option ℕ :=
  if cs ≠ [] ∧ cs.all Char.isDigit then
    some (cs.foldl (fun a c => a * 10 + (c.toNat - 48)) 0)
  else
    none

/-- Python whitespace stripping as `int(...)` applies to its string
argument: drop leading and trailing whitespace characters. -/
def pyStripWs (s : String) : String :=
  String.mk (((s.toList.dropWhile Char.isWhitespace).reverse.dropWhile
    Char.isWhitespace).reverse)

/-- Python `int(s)` on a string: surrounding whitespace is ignored, then an
optional sign followed by a nonempty digit run; anything else raises
(modelled as `none`). Underscore digit separators are not modelled. -/
def pyIntOfString (s : String) : Option ℤ :=
  match (pyStripWs s).toList with
  | '-' :: rest => (parseDigits rest).map (fun n => -(n : ℤ))
  | '+' :: rest => (parseDigits rest).map (fun n => (n : ℤ))
  | cs => (parseDigits cs).map (fun n => (n : ℤ))

/-- Python `int(x)` on a JSON value: numbers truncate toward zero, strings
parse as decimal integers, booleans convert to 0 or 1, and `None`, lists and
dicts raise (modelled as `none`). -/
def pyInt : Json → Option ℤ
  | Json.num q => some (ratTrunc q)
  | Json.str s => pyIntOfString s
  | Json.bool b => some (if b then 1 else 0)
  | _ => none

/-- Python `str(x)` on scalar JSON values, used only to interpolate values
into response messages. Non-integral rationals print as fractions here where
Python would print a decimal float; no claim depends on that text. -/
def pyStr : Json → String
  | Json.null => "None"
  | Json.bool b => if b then "True" else "False"
  | Json.num q => toString q
  | Json.str s => s
  | Json.arr _ => "<list>"
  | Json.obj _ => "<dict>"

/-- The body of an HTTP response: a JSON document written through
`json.dumps`, the static front-end HTML page, or the default HTML error page
produced by `BaseHTTPRequestHandler.send_error`. -/
inductive RBody where
  | json (j : Json) : RBody
  | html (s : String) : RBody
  | errorHtml (msg : String) : RBody

/-- An HTTP response: status code and body. -/
structure Resp where
  code : ℕ
  body : RBody

/-- A response whose body is the JSON object with the single key `error`,
the structured error shape used by the explicit JSON error writes. -/
def jsonError (code : ℕ) (msg : String) : Resp :=
  Resp.mk code (RBody.json (Json.obj [("error", Json.str msg)]))

/-- `send_error(code, msg)`: the default HTML error page of the base
handler class, not a JSON document. -/
def sendError (code : ℕ) (msg : String) : Resp :=
  Resp.mk code (RBody.errorHtml msg)

/-- Does a response body have the structured JSON error shape, an object
whose single key is `error`? -/
def isErrorObject : RBody → Bool
  | RBody.json (Json.obj [(k, _)]) => k == "error"
  | _ => false

/-- Is a response body the default HTML error page of `send_error`? -/
def isDefaultErrorPage : RBody → Bool
  | RBody.errorHtml _ => true
  | _ => false

/-- Modelled from the spec: the static front-end document served at the root
URL. `frontend/frontend.html` is not under `src/`, so its text is opaque. -/
def FRONTEND_HTML : String := "<frontend document>"

/-- The module-level mutable state of `server.py` together with the record
store behind `blacklist.py`:
- `ledger` is the sequence of attack records that `get_blacklist()` returns;
- `interval` is `auto_update_interval`;
- `autoEvent` is the flag of `auto_update_event`;
- `stopEvent` is the flag of `stop_event`. -/
structure St where
  ledger : List Rec
  interval : ℤ
  autoEvent : Bool
  stopEvent : Bool

/-- Modelled from the spec: `get_blacklist` of `blacklist.py` (not under
`src/`), the LedgerGateway `list()` operation returning the ordered sequence
of current attack records. -/
def get_blacklist (st : St) : List Rec :=
  st.ledger

/-- Modelled from the spec: `log_attack` of `blacklist.py` (not under
`src/`), the LedgerGateway `append(ip, attack_type)` operation: a new record
with those two fields is appended at the end of the ledger. -/
def log_attack (ip attackType : Json) (st : St) : St :=
  St.mk (st.ledger ++ [[("ip", ip), ("attack_type", attackType)]])
    st.interval st.autoEvent st.stopEvent

/-- Modelled from the spec: `delete_attack` of `blacklist.py` (not under
`src/`), the LedgerGateway `delete(index) -> bool` operation: true when a
record existed at that ledger position and was removed. Returns the new
ledger on success, `none` when no record exists at the index. -/
def delete_attack (index : ℤ) (led : List Rec) : Option (List Rec) :=
  if 0 ≤ index ∧ index.toNat < led.length then
    some (led.eraseIdx index.toNat)
  else
    none

/-- Modelled from the spec: `clear_blacklist` of `blacklist.py` (not under
`src/`), the LedgerGateway `clear_all()` operation. -/
def clear_blacklist (st : St) : St :=
  St.mk [] st.interval st.autoEvent st.stopEvent

/-- Modelled from the spec: `force_update` of `blacklist.py` (not under
`src/`), the LedgerGateway `refresh_from_source()` resync. The remote chain
is outside the model, so the locally held ledger is already authoritative
and the resync changes nothing observable here. -/
def force_update (st : St) : St :=
  st

/-- `SimpleRESTHandler.load_blacklist` (server.py lines 86-91): project the
`ip` field of every record that has one into the cached set of blocked IPs.
Records lacking an `ip` key are skipped. Python builds a `set`, whose
observable content is membership; the model keeps the projected list.
(Python would additionally require the projected values to be hashable;
per the data model they are strings.) -/
def load_blacklist (recs : List Rec) : List Json :=
  recs.filterMap (fun r => dictGet r "ip")

/-- `SimpleRESTHandler.client_ip_blocked` (server.py lines 93-98): is the
client address string among the cached blocked values? A Python `str` is
equal to a set element exactly when that element is an equal string. -/
def client_ip_blocked (clientIp : String) (ips : List Json) : Bool :=
  ips.any (fun j =>
    match j with
    | Json.str s => s == clientIp
    | _ => false)

/-- The uniform 403 response for a blocked caller. -/
def accessDenied : Resp :=
  jsonError 403 "Access denied: IP blocked"

/-- A request body as the handlers observe it: absent (`Content-Length` 0),
present but not parseable by `json.loads`, or a parsed JSON document. -/
inductive Body where
  | empty : Body
  | malformed : Body
  | json (j : Json) : Body

/-- `do_GET` (server.py lines 100-137): refresh the cache, gate on the
caller address, then route `/blacklist`, `/`, or a JSON 404. GET never
mutates the state. -/
def doGET (clientIp : String) (path : String) (st : St) : Resp :=
  let ips := load_blacklist (get_blacklist st)
  if client_ip_blocked clientIp ips then
    accessDenied
  else if path = "/blacklist" then
    Resp.mk 200 (RBody.json (Json.obj
      [("status", Json.str "Blacklist fetched"),
       ("attacks", Json.arr (List.map Json.obj (get_blacklist st)))]))
  else if path = "/" then
    Resp.mk 200 (RBody.html FRONTEND_HTML)
  else
    jsonError 404 "Endpoint not found"

/-- The `/blacklist/set-interval` branch of `do_POST` (server.py lines
153-177): an empty body and any failure of `json.loads`, `data.get`
attribute access, `int(...)` conversion or the `>= 1` check go through
`send_error` (HTML 400); on success the interval global is updated, the
interval-change event is set, and the new value is echoed. -/
def setIntervalRoute (body : Body) (st : St) : Resp × St :=
  match body with
  | Body.empty => (sendError 400 "No data received", st)
  | Body.malformed => (sendError 400 "Invalid data", st)
  | Body.json data =>
    match pyGetD data "interval" (Json.num 0) with
    | none => (sendError 400 "Invalid data", st)
    | some v =>
      match pyInt v with
      | none => (sendError 400 "Invalid data", st)
      | some n =>
        if n < 1 then
          (sendError 400 "Invalid data", st)
        else
          (Resp.mk 200 (RBody.json (Json.obj
             [("status", Json.str "success"),
              ("new_interval", Json.num (n : ℚ))])),
           St.mk st.ledger n true st.stopEvent)

/-- The `/blacklist/log` branch of `do_POST` (server.py lines 200-221): an
unparseable body, a non-dict document, or a falsy `ip` or `attack_type`
yields a JSON 400 and appends nothing; otherwise the record is appended and
a JSON 200 reports the logged IP. -/
def logRoute (body : Body) (st : St) : Resp × St :=
  match body with
  | Body.empty => (jsonError 400 "Invalid JSON or missing fields", st)
  | Body.malformed => (jsonError 400 "Invalid JSON or missing fields", st)
  | Body.json data =>
    match pyGetD data "ip" Json.null, pyGetD data "attack_type" Json.null with
    | some ip, some attackType =>
      if ip.falsy || attackType.falsy then
        (jsonError 400 "Invalid JSON or missing fields", st)
      else
        (Resp.mk 200 (RBody.json (Json.obj
           [("status", Json.str ("Attack from IP " ++ pyStr ip ++ " logged"))])),
         log_attack ip attackType st)
    | _, _ => (jsonError 400 "Invalid JSON or missing fields", st)

/-- `add_test_attacks` (server.py lines 268-280): append five fixed
synthetic records. -/
def add_test_attacks (st : St) : St :=
  [("1.1.1.1", "DoS Test"), ("2.2.2.2", "DoS Test"), ("3.3.3.3", "DoS Test"),
   ("4.4.4.4", "DoS Test"), ("5.5.5.5", "DoS Test")].foldl
    (fun s p => log_attack (Json.str p.1) (Json.str p.2) s) st

/-- `do_POST` (server.py lines 139-232): refresh the cache, gate on the
caller address, then dispatch on the path. -/
def doPOST (clientIp : String) (path : String) (body : Body) (st : St) :
    Resp × St :=
  let ips := load_blacklist (get_blacklist st)
  if client_ip_blocked clientIp ips then
    (accessDenied, st)
  else if path = "/blacklist/set-interval" then
    setIntervalRoute body st
  else if path = "/blacklist/update" then
    let st2 := force_update st
    (Resp.mk 200 (RBody.json (Json.obj
       [("status", Json.str "Blacklist updated"),
        ("attacks", Json.arr (List.map Json.obj (get_blacklist st2)))])),
     st2)
  else if path = "/blacklist/clear" then
    (Resp.mk 200 (RBody.json (Json.obj
       [("status", Json.str "Blacklist cleared")])), clear_blacklist st)
  else if path = "/blacklist/log" then
    logRoute body st
  else if path = "/blacklist/addTestAttacks" then
    (Resp.mk 200 (RBody.json (Json.obj
       [("message", Json.str "Test attacks added successfully")])),
     add_test_attacks st)
  else
    (jsonError 404 "Endpoint not found", st)

/-- Python `path.strip(slash)`: drop leading and trailing slash characters. -/
def stripSlashes (s : String) : String :=
  String.mk (((s.toList.dropWhile (· == '/')).reverse.dropWhile
    (· == '/')).reverse)

/-- Python `s.split(sep)` for a single-character separator, on the character
list: every separator occurrence cuts, empty pieces included. -/
def splitSlashAux : List Char → List Char → List String
  | [], acc => [String.mk acc.reverse]
  | c :: rest, acc =>
    if c = '/' then String.mk acc.reverse :: splitSlashAux rest []
    else splitSlashAux rest (c :: acc)

/-- Python `s.split(slash)`: split on every slash, empty pieces included. -/
def splitSlashes (s : String) : List String :=
  splitSlashAux s.toList []

/-- `do_DELETE` (server.py lines 235-264): split the path, and on a match of
the shape blacklist/delete/index parse the index (JSON 400 when not an
integer) and call the ledger delete (JSON 404 when nothing exists at that
index, JSON 200 on removal); any other path goes through `send_error` (HTML
404). Unlike `do_GET` and `do_POST`, the handler performs no cache refresh
and no gate check, so the caller address is never consulted. -/
def doDELETE (clientIp : String) (path : String) (st : St) : Resp × St :=
  let parts := splitSlashes (stripSlashes path)
  match parts with
  | [a, b, idxStr] =>
    if a = "blacklist" ∧ b = "delete" then
      match pyIntOfString idxStr with
      | none => (jsonError 400 "Index must be an integer", st)
      | some index =>
        match delete_attack index st.ledger with
        | some led2 =>
          (Resp.mk 200 (RBody.json (Json.obj
             [("message", Json.str ("Attack at index " ++ toString index
                ++ " deleted"))])),
           St.mk led2 st.interval st.autoEvent st.stopEvent)
        | none =>
          (jsonError 404 ("No attack found at index " ++ toString index), st)
    else
      (sendError 404 "Path not found", st)
  | _ => (sendError 404 "Path not found", st)

/-- Modelled from the spec: the outcome of one call to `fetch_blacklist` of
`blacklist.py` (not under `src/`), the LedgerGateway bulk refresh: it either
resyncs the ledger records or raises. -/
inductive FetchOutcome where
  | ok (chain : List Rec) : FetchOutcome
  | err (msg : String) : FetchOutcome

/-- The Running phase of one `periodic_update` cycle (server.py lines
47-56): if the stop event is set the loop guard fails and the loop exits;
otherwise `fetch_blacklist()` runs under try/except, so a failure is caught
and logged, the previous records stay intact, and the loop reaches its wait
either way. The boolean reports whether the wait is reached. -/
def schedulerRunPhase (o : FetchOutcome) (st : St) : St × Bool :=
  if st.stopEvent then
    (st, false)
  else
    match o with
    | FetchOutcome.ok chain =>
      (St.mk chain st.interval st.autoEvent st.stopEvent, true)
    | FetchOutcome.err _ => (st, true)

/-- The Waiting phase of one `periodic_update` cycle (server.py line 57):
`stop_event.wait(timeout=auto_update_interval)`. The timeout is the value of
the interval global at the moment the wait starts. `stopSetAt` and
`autoSetAt` give the number of seconds into the wait at which `stop_event`
and `auto_update_event` are set, if at all. The wait returns at the earlier
of the stop event and the timeout, with the flag value; the
`auto_update_event` is not among its wake conditions, so `autoSetAt` does
not influence the result. The pair is (seconds waited, flag seen). -/
def schedulerWait (stopSetAt autoSetAt : Option ℕ) (st : St) : ℕ × Bool :=
  let timeoutSec := st.interval.toNat
  match stopSetAt with
  | some t => if t < timeoutSec then (t, true) else (timeoutSec, false)
  | none => (timeoutSec, false)

end BlacklistServer

namespace BlacklistServer

/-- Shared helper: truncating an integer-valued rational gives back the
integer, matching Python int() on an exact integer. -/
theorem ratTrunc_intCast (n : ℤ) : ratTrunc (n : ℚ) = n := by
  simp [ratTrunc, Rat.num_intCast, Rat.den_intCast]

/-- Shared helper: a successful ledger delete removes exactly one record. -/
theorem delete_attack_length (index : ℤ) (led led2 : List Rec)
    (h : delete_attack index led = some led2) :
    led2.length + 1 = led.length := by
  unfold delete_attack at h
  split at h
  case isTrue hc =>
    cases h
    have hlt : index.toNat < led.length := hc.2
    rw [List.length_eraseIdx_of_lt hlt]
    omega
  case isFalse hc => cases h

/-- C1: for every inbound request the handler refreshes the cache and gates
on the caller address — as claimed this fails for DELETE. Counterexample:
with the ledger holding a record for 6.6.6.6, that address is in the freshly
loaded cache, yet its DELETE request is answered 200 and the deletion is
dispatched (the ledger is emptied), not 403. -/
theorem c1_counterexample :
    client_ip_blocked "6.6.6.6"
      (load_blacklist (get_blacklist
        (St.mk [[("ip", Json.str "6.6.6.6"), ("attack_type", Json.str "DoS")]]
          30 false false))) = true ∧
    (doDELETE "6.6.6.6" "/blacklist/delete/0"
      (St.mk [[("ip", Json.str "6.6.6.6"), ("attack_type", Json.str "DoS")]]
        30 false false)).1.code = 200 ∧
    (doDELETE "6.6.6.6" "/blacklist/delete/0"
      (St.mk [[("ip", Json.str "6.6.6.6"), ("attack_type", Json.str "DoS")]]
        30 false false)).2.ledger = [] := by
  refine ⟨rfl, rfl, rfl⟩

/-- C1 (amended): GET and POST requests refresh the blacklist cache and gate
on the caller address, answering 403 with the access-denied payload and
dispatching nothing when the caller is in the cache; DELETE requests perform
no refresh and no check, so their handling is independent of the caller
address. -/
theorem c1_gate_on_get_and_post_only (clientIp otherIp path : String)
    (body : Body) (st : St)
    (hb : client_ip_blocked clientIp (load_blacklist (get_blacklist st)) =
      true) :
    doGET clientIp path st = accessDenied ∧
    doPOST clientIp path body st = (accessDenied, st) ∧
    doDELETE clientIp path st = doDELETE otherIp path st := by
  refine ⟨?_, ?_, rfl⟩
  · simp [doGET, hb]
  · simp [doPOST, hb]

/-- C1 (amended) witness at a concrete blocked caller. -/
theorem c1_gate_on_get_and_post_only_witness :
    doGET "6.6.6.6" "/blacklist"
      (St.mk [[("ip", Json.str "6.6.6.6")]] 30 false false) = accessDenied ∧
    doPOST "6.6.6.6" "/blacklist" Body.empty
      (St.mk [[("ip", Json.str "6.6.6.6")]] 30 false false) =
      (accessDenied, St.mk [[("ip", Json.str "6.6.6.6")]] 30 false false) ∧
    doDELETE "6.6.6.6" "/blacklist"
      (St.mk [[("ip", Json.str "6.6.6.6")]] 30 false false) =
      doDELETE "9.9.9.9" "/blacklist"
        (St.mk [[("ip", Json.str "6.6.6.6")]] 30 false false) :=
  c1_gate_on_get_and_post_only "6.6.6.6" "9.9.9.9" "/blacklist" Body.empty
    (St.mk [[("ip", Json.str "6.6.6.6")]] 30 false false) rfl

/-- C2: the wait of the scheduler loop is the call
stop_event.wait with the interval as timeout; its outcome is the same for
any setting of the interval-change event, and concretely a wait with a 30
second interval runs the full 30 seconds even when the interval-change
event is set 2 seconds in — the signal never interrupts the wait. -/
theorem c2_interval_signal_never_wakes_wait (stopSetAt autoA autoB : Option ℕ)
    (st : St) :
    schedulerWait stopSetAt autoA st = schedulerWait stopSetAt autoB st ∧
    schedulerWait none (some 2) (St.mk [] 30 false false) = (30, false) := by
  exact ⟨rfl, rfl⟩

/-- C6: when the loop guard passes, a failing bulk refresh is absorbed: the
state (in particular the ledger snapshot) is unchanged and the cycle still
reaches its wait; a later cycle with a successful fetch installs the fetched
records, so the refresh is retried. -/
theorem c6_refresh_failure_is_absorbed (st : St) (msg : String)
    (chain : List Rec) (h : st.stopEvent = false) :
    schedulerRunPhase (FetchOutcome.err msg) st = (st, true) ∧
    schedulerRunPhase (FetchOutcome.ok chain) st =
      (St.mk chain st.interval st.autoEvent st.stopEvent, true) := by
  constructor <;> simp [schedulerRunPhase, h]

/-- C6 witness at a concrete running scheduler state. -/
theorem c6_refresh_failure_is_absorbed_witness :
    schedulerRunPhase (FetchOutcome.err "ledger down")
      (St.mk [[("ip", Json.str "1.1.1.1")]] 30 false false) =
      (St.mk [[("ip", Json.str "1.1.1.1")]] 30 false false, true) ∧
    schedulerRunPhase (FetchOutcome.ok [])
      (St.mk [[("ip", Json.str "1.1.1.1")]] 30 false false) =
      (St.mk [] 30 false false, true) :=
  c6_refresh_failure_is_absorbed
    (St.mk [[("ip", Json.str "1.1.1.1")]] 30 false false) "ledger down" []
    rfl

/-- C9: the loaded cache holds exactly the ip values of the records that
carry an ip key, and a record without an ip key is skipped: removing it
from the ledger leaves the loaded cache unchanged. -/
theorem c9_load_blacklist_projects_ip (recs rs1 rs2 : List Rec) (j : Json)
    (r : Rec) :
    (j ∈ load_blacklist recs ↔ ∃ a ∈ recs, dictGet a "ip" = some j) ∧
    (dictGet r "ip" = none →
      load_blacklist (rs1 ++ r :: rs2) = load_blacklist (rs1 ++ rs2)) := by
  constructor
  · simp [load_blacklist, List.mem_filterMap]
  · intro h
    simp [load_blacklist, List.filterMap_append, List.filterMap_cons, h]

/-- C9 witness: a record with no ip key contributes nothing to the cache. -/
theorem c9_load_blacklist_projects_ip_witness :
    load_blacklist ([[("ip", Json.str "1.2.3.4")]] ++
        [("attack_type", Json.str "DoS")] :: [[("ip", Json.str "5.6.7.8")]]) =
      load_blacklist ([[("ip", Json.str "1.2.3.4")]] ++
        [[("ip", Json.str "5.6.7.8")]]) :=
  (c9_load_blacklist_projects_ip [] [[("ip", Json.str "1.2.3.4")]]
    [[("ip", Json.str "5.6.7.8")]] Json.null
    [("attack_type", Json.str "DoS")]).2 rfl

/-- C7: a DELETE request whose path splits as blacklist/delete/index is
answered 400 when the index does not parse as an integer, 404 with the state
(and so the record count) unchanged when no record exists at the index, and
200 with exactly one record removed when one does. -/
theorem c7_delete_by_index (clientIp path idxStr : String) (st : St)
    (hp : splitSlashes (stripSlashes path) = ["blacklist", "delete", idxStr]) :
    (pyIntOfString idxStr = none →
      doDELETE clientIp path st =
        (jsonError 400 "Index must be an integer", st)) ∧
    (∀ i, pyIntOfString idxStr = some i → delete_attack i st.ledger = none →
      doDELETE clientIp path st =
        (jsonError 404 ("No attack found at index " ++ toString i), st)) ∧
    (∀ i led2, pyIntOfString idxStr = some i →
      delete_attack i st.ledger = some led2 →
      doDELETE clientIp path st =
        (Resp.mk 200 (RBody.json (Json.obj [("message",
            Json.str ("Attack at index " ++ toString i ++ " deleted"))])),
         St.mk led2 st.interval st.autoEvent st.stopEvent) ∧
      led2.length + 1 = st.ledger.length) := by
  refine ⟨?_, ?_, ?_⟩
  · intro hi
    simp [doDELETE, hp, hi]
  · intro i hi hd
    simp [doDELETE, hp, hi, hd]
  · intro i led2 hi hd
    exact ⟨by simp [doDELETE, hp, hi, hd],
      delete_attack_length i st.ledger led2 hd⟩

/-- C7 witness: deleting index 5 from an empty ledger yields 404 and leaves
the state unchanged. -/
theorem c7_delete_by_index_witness :
    doDELETE "9.9.9.9" "/blacklist/delete/5" (St.mk [] 30 false false) =
      (jsonError 404 ("No attack found at index " ++ toString (5 : ℤ)),
       St.mk [] 30 false false) :=
  (c7_delete_by_index "9.9.9.9" "/blacklist/delete/5" "5"
    (St.mk [] 30 false false) rfl).2.1 5 rfl rfl

/-- C5: a set-interval request from a non-blocked caller carrying the
integer value n with n at least 1 is answered 200 echoing n, the interval
global becomes n and the interval-change event is set, and a subsequent
scheduler wait that is not interrupted by shutdown runs for n seconds, the
new interval. -/
theorem c5_set_interval_success (clientIp : String) (data : Json) (n : ℤ)
    (st : St)
    (hnb : client_ip_blocked clientIp (load_blacklist (get_blacklist st)) =
      false)
    (hv : pyGetD data "interval" (Json.num 0) = some (Json.num (n : ℚ)))
    (h1 : 1 ≤ n) :
    doPOST clientIp "/blacklist/set-interval" (Body.json data) st =
      (Resp.mk 200 (RBody.json (Json.obj
        [("status", Json.str "success"),
         ("new_interval", Json.num (n : ℚ))])),
       St.mk st.ledger n true st.stopEvent) ∧
    schedulerWait none none (St.mk st.ledger n true st.stopEvent) =
      (n.toNat, false) := by
  have hroute : doPOST clientIp "/blacklist/set-interval" (Body.json data)
      st = setIntervalRoute (Body.json data) st := by
    simp [doPOST, hnb]
  refine ⟨?_, rfl⟩
  rw [hroute]
  simp only [setIntervalRoute, hv, pyInt, ratTrunc_intCast]
  rw [if_neg (show ¬ (n < 1) by omega)]

/-- C5 witness: setting the interval to 5 on a fresh state. -/
theorem c5_set_interval_success_witness :
    doPOST "9.9.9.9" "/blacklist/set-interval"
      (Body.json (Json.obj [("interval", Json.num ((5 : ℤ) : ℚ))]))
      (St.mk [] 30 false false) =
      (Resp.mk 200 (RBody.json (Json.obj
        [("status", Json.str "success"),
         ("new_interval", Json.num ((5 : ℤ) : ℚ))])),
       St.mk [] 5 true false) ∧
    schedulerWait none none (St.mk [] 5 true false) = ((5 : ℤ).toNat, false) :=
  c5_set_interval_success "9.9.9.9"
    (Json.obj [("interval", Json.num ((5 : ℤ) : ℚ))]) 5
    (St.mk [] 30 false false) rfl rfl (by omega)

/-- C4: set-interval rejects any non-integer value with 400 — as claimed
this fails: the JSON string value 5 is not an integer, yet the request is
answered 200 and the interval global becomes 5. -/
theorem c4_counterexample :
    (doPOST "8.8.8.8" "/blacklist/set-interval"
      (Body.json (Json.obj [("interval", Json.str "5")]))
      (St.mk [] 30 false false)).1.code = 200 ∧
    (doPOST "8.8.8.8" "/blacklist/set-interval"
      (Body.json (Json.obj [("interval", Json.str "5")]))
      (St.mk [] 30 false false)).2.interval = 5 := by
  exact ⟨rfl, rfl⟩

/-- C4 (amended): a set-interval request from a non-blocked caller whose
interval value cannot be converted by Python int() to an integer at least 1
— the body is empty or unparseable, the document is not an object, the
value is missing (defaulting to 0), the conversion raises, or the converted
value is below 1 — is answered 400 and the whole state, in particular the
interval, is unchanged. -/
theorem c4_amended_invalid_interval_rejected (clientIp : String)
    (body : Body) (st : St)
    (hnb : client_ip_blocked clientIp (load_blacklist (get_blacklist st)) =
      false)
    (hbad : ∀ data v m, body = Body.json data →
      pyGetD data "interval" (Json.num 0) = some v → pyInt v = some m →
      m < 1) :
    (doPOST clientIp "/blacklist/set-interval" body st).1.code = 400 ∧
    (doPOST clientIp "/blacklist/set-interval" body st).2 = st := by
  have hroute : doPOST clientIp "/blacklist/set-interval" body st =
      setIntervalRoute body st := by
    simp [doPOST, hnb]
  rw [hroute]
  cases body with
  | empty => exact ⟨rfl, rfl⟩
  | malformed => exact ⟨rfl, rfl⟩
  | json data =>
    cases hg : pyGetD data "interval" (Json.num 0) with
    | none => simp [setIntervalRoute, hg, sendError]
    | some v =>
      cases hi : pyInt v with
      | none => simp [setIntervalRoute, hg, hi, sendError]
      | some m =>
        have hm : m < 1 := hbad data v m rfl hg hi
        simp [setIntervalRoute, hg, hi, hm, sendError]

/-- C4 (amended) witness: an unparseable body is answered 400 and the state
is unchanged. -/
theorem c4_amended_invalid_interval_rejected_witness :
    (doPOST "8.8.8.8" "/blacklist/set-interval" Body.malformed
      (St.mk [] 30 false false)).1.code = 400 ∧
    (doPOST "8.8.8.8" "/blacklist/set-interval" Body.malformed
      (St.mk [] 30 false false)).2 = St.mk [] 30 false false :=
  c4_amended_invalid_interval_rejected "8.8.8.8" Body.malformed
    (St.mk [] 30 false false) rfl
    (by intro data v m hd hv hm; simp at hd)

/-- Shared helper: the log route on a JSON object body, written out. -/
theorem logRoute_obj (l : Rec) (st : St) :
    logRoute (Body.json (Json.obj l)) st =
      (if ((dictGet l "ip").getD Json.null).falsy ||
          ((dictGet l "attack_type").getD Json.null).falsy then
        (jsonError 400 "Invalid JSON or missing fields", st)
      else
        (Resp.mk 200 (RBody.json (Json.obj [("status",
            Json.str ("Attack from IP " ++
              pyStr ((dictGet l "ip").getD Json.null) ++ " logged"))])),
         log_attack ((dictGet l "ip").getD Json.null)
           ((dictGet l "attack_type").getD Json.null) st)) := rfl

/-- Shared helper: every set-interval response with an error status has the
default HTML error page as its body. -/
theorem setIntervalRoute_error_bodies (body : Body) (st : St)
    (h : 400 ≤ (setIntervalRoute body st).1.code) :
    isDefaultErrorPage (setIntervalRoute body st).1.body = true := by
  cases body with
  | empty => rfl
  | malformed => rfl
  | json data =>
    cases data <;> try rfl
    case obj l =>
      simp only [setIntervalRoute, pyGetD] at h ⊢
      cases hi : pyInt ((dictGet l "interval").getD (Json.num 0)) with
      | none => simp [hi, sendError, isDefaultErrorPage]
      | some m =>
        by_cases hm : m < 1
        · simp [hi, hm, sendError, isDefaultErrorPage]
        · simp [hi, hm] at h

/-- Shared helper: every log response with an error status has the
structured JSON error object as its body. -/
theorem logRoute_error_bodies (body : Body) (st : St)
    (h : 400 ≤ (logRoute body st).1.code) :
    isErrorObject (logRoute body st).1.body = true := by
  cases body with
  | empty => rfl
  | malformed => rfl
  | json data =>
    cases data <;> try rfl
    case obj l =>
      rw [logRoute_obj] at h ⊢
      by_cases hf : (((dictGet l "ip").getD Json.null).falsy ||
          ((dictGet l "attack_type").getD Json.null).falsy) = true
      · simp [hf, jsonError, isErrorObject]
      · simp [hf] at h

/-- C8: log accepts whenever both fields are present — as claimed this
fails: with a present but empty ip string (and attack_type present and
nonempty) the body is valid JSON and neither field is missing, yet the
request is answered 400 and nothing is appended. -/
theorem c8_counterexample :
    pyGetD (Json.obj [("ip", Json.str ""), ("attack_type",
      Json.str "DoS Test")]) "ip" Json.null = some (Json.str "") ∧
    pyGetD (Json.obj [("ip", Json.str ""), ("attack_type",
      Json.str "DoS Test")]) "attack_type" Json.null =
      some (Json.str "DoS Test") ∧
    (doPOST "7.7.7.7" "/blacklist/log"
      (Body.json (Json.obj [("ip", Json.str ""), ("attack_type",
        Json.str "DoS Test")])) (St.mk [] 30 false false)).1.code = 400 ∧
    (doPOST "7.7.7.7" "/blacklist/log"
      (Body.json (Json.obj [("ip", Json.str ""), ("attack_type",
        Json.str "DoS Test")])) (St.mk [] 30 false false)).2 =
      St.mk [] 30 false false := by
  exact ⟨rfl, rfl, rfl, rfl⟩

/-- C8 (amended): for a non-blocked caller, log answers 400 and appends
nothing when the body is empty or unparseable, when the document is not an
object, or when either field is missing or falsy (a missing field defaults
to None, which is falsy); when both fields are present and truthy the
record with those two values is appended and the answer is 200. -/
theorem c8_log_validation (clientIp : String) (body : Body) (st : St)
    (hnb : client_ip_blocked clientIp (load_blacklist (get_blacklist st)) =
      false) :
    (body = Body.empty ∨ body = Body.malformed →
      doPOST clientIp "/blacklist/log" body st =
        (jsonError 400 "Invalid JSON or missing fields", st)) ∧
    (∀ data, body = Body.json data → pyGetD data "ip" Json.null = none →
      doPOST clientIp "/blacklist/log" body st =
        (jsonError 400 "Invalid JSON or missing fields", st)) ∧
    (∀ data ipv atv, body = Body.json data →
      pyGetD data "ip" Json.null = some ipv →
      pyGetD data "attack_type" Json.null = some atv →
      (ipv.falsy || atv.falsy) = true →
      doPOST clientIp "/blacklist/log" body st =
        (jsonError 400 "Invalid JSON or missing fields", st)) ∧
    (∀ data ipv atv, body = Body.json data →
      pyGetD data "ip" Json.null = some ipv →
      pyGetD data "attack_type" Json.null = some atv →
      (ipv.falsy || atv.falsy) = false →
      (doPOST clientIp "/blacklist/log" body st).1.code = 200 ∧
      (doPOST clientIp "/blacklist/log" body st).2 = log_attack ipv atv st) := by
  have hroute : doPOST clientIp "/blacklist/log" body st =
      logRoute body st := by
    simp [doPOST, hnb]
  refine ⟨?_, ?_, ?_, ?_⟩
  · rintro (rfl | rfl) <;> rw [hroute] <;> rfl
  · rintro data rfl hip
    rw [hroute]
    cases data <;> try rfl
    case obj l => simp [pyGetD] at hip
  · rintro data ipv atv rfl hip hat hf
    rw [hroute]
    cases data <;> try simp [pyGetD] at hip
    case obj l =>
      have hip2 : (dictGet l "ip").getD Json.null = ipv := by
        simpa [pyGetD] using hip
      have hat2 : (dictGet l "attack_type").getD Json.null = atv := by
        simpa [pyGetD] using hat
      rw [logRoute_obj, hip2, hat2, hf]
      simp
  · rintro data ipv atv rfl hip hat hf
    rw [hroute]
    cases data <;> try simp [pyGetD] at hip
    case obj l =>
      have hip2 : (dictGet l "ip").getD Json.null = ipv := by
        simpa [pyGetD] using hip
      have hat2 : (dictGet l "attack_type").getD Json.null = atv := by
        simpa [pyGetD] using hat
      rw [logRoute_obj, hip2, hat2, hf]
      simp

/-- C8 (amended) witness: a well-formed log request appends its record. -/
theorem c8_log_validation_witness :
    (doPOST "7.7.7.7" "/blacklist/log"
      (Body.json (Json.obj [("ip", Json.str "9.9.9.9"), ("attack_type",
        Json.str "DoS Test")])) (St.mk [] 30 false false)).1.code = 200 ∧
    (doPOST "7.7.7.7" "/blacklist/log"
      (Body.json (Json.obj [("ip", Json.str "9.9.9.9"), ("attack_type",
        Json.str "DoS Test")])) (St.mk [] 30 false false)).2 =
      log_attack (Json.str "9.9.9.9") (Json.str "DoS Test")
        (St.mk [] 30 false false) :=
  (c8_log_validation "7.7.7.7"
    (Body.json (Json.obj [("ip", Json.str "9.9.9.9"), ("attack_type",
      Json.str "DoS Test")])) (St.mk [] 30 false false) rfl).2.2.2
    (Json.obj [("ip", Json.str "9.9.9.9"), ("attack_type",
      Json.str "DoS Test")]) (Json.str "9.9.9.9") (Json.str "DoS Test")
    rfl rfl rfl rfl

/-- C10: log rejects with 400 a present but falsy ip or attack_type value,
and set-interval accepts any JSON value Python int() converts, storing and
echoing the converted integer. -/
theorem c10_falsy_fields_and_int_conversion (clientIp : String)
    (data : Json) (ipv atv v : Json) (n : ℤ) (st : St)
    (hnb : client_ip_blocked clientIp (load_blacklist (get_blacklist st)) =
      false) :
    (pyGetD data "ip" Json.null = some ipv →
     pyGetD data "attack_type" Json.null = some atv →
     ipv.falsy = true ∨ atv.falsy = true →
      doPOST clientIp "/blacklist/log" (Body.json data) st =
        (jsonError 400 "Invalid JSON or missing fields", st)) ∧
    (pyGetD data "interval" (Json.num 0) = some v → pyInt v = some n →
     1 ≤ n →
      doPOST clientIp "/blacklist/set-interval" (Body.json data) st =
        (Resp.mk 200 (RBody.json (Json.obj
          [("status", Json.str "success"),
           ("new_interval", Json.num (n : ℚ))])),
         St.mk st.ledger n true st.stopEvent)) := by
  constructor
  · intro hip hat hfalsy
    have hroute : doPOST clientIp "/blacklist/log" (Body.json data) st =
        logRoute (Body.json data) st := by
      simp [doPOST, hnb]
    rw [hroute]
    cases data <;> try simp [pyGetD] at hip
    case obj l =>
      have hip2 : (dictGet l "ip").getD Json.null = ipv := by
        simpa [pyGetD] using hip
      have hat2 : (dictGet l "attack_type").getD Json.null = atv := by
        simpa [pyGetD] using hat
      have hf : (ipv.falsy || atv.falsy) = true := by
        rcases hfalsy with hfa | hfa <;> simp [hfa]
      rw [logRoute_obj, hip2, hat2, hf]
      simp
  · intro hv hi h1
    have hroute : doPOST clientIp "/blacklist/set-interval" (Body.json data)
        st = setIntervalRoute (Body.json data) st := by
      simp [doPOST, hnb]
    rw [hroute]
    simp only [setIntervalRoute, hv, hi]
    rw [if_neg (show ¬ (n < 1) by omega)]

/-- C10 witness: a present empty attack_type string is rejected with 400,
and the numeric string 5 is accepted, stored and echoed as the integer 5. -/
theorem c10_falsy_fields_and_int_conversion_witness :
    doPOST "7.7.7.7" "/blacklist/log"
      (Body.json (Json.obj [("ip", Json.str "9.9.9.9"),
        ("attack_type", Json.str "")])) (St.mk [] 30 false false) =
      (jsonError 400 "Invalid JSON or missing fields",
       St.mk [] 30 false false) ∧
    doPOST "7.7.7.7" "/blacklist/set-interval"
      (Body.json (Json.obj [("interval", Json.str "5")]))
      (St.mk [] 30 false false) =
      (Resp.mk 200 (RBody.json (Json.obj
        [("status", Json.str "success"),
         ("new_interval", Json.num ((5 : ℤ) : ℚ))])),
       St.mk [] 5 true false) :=
  ⟨(c10_falsy_fields_and_int_conversion "7.7.7.7"
      (Json.obj [("ip", Json.str "9.9.9.9"), ("attack_type", Json.str "")])
      (Json.str "9.9.9.9") (Json.str "") Json.null 0
      (St.mk [] 30 false false) rfl).1 rfl rfl (Or.inr rfl),
   (c10_falsy_fields_and_int_conversion "7.7.7.7"
      (Json.obj [("interval", Json.str "5")])
      Json.null Json.null (Json.str "5") 5
      (St.mk [] 30 false false) rfl).2 rfl rfl (by omega)⟩

/-- C3: every error response has a JSON object body with the error key — as
claimed this fails: an unparseable set-interval body is answered 400, and
the body is the default HTML error page, not a JSON object. -/
theorem c3_counterexample :
    (doPOST "9.9.9.9" "/blacklist/set-interval" Body.malformed
      (St.mk [] 30 false false)).1.code = 400 ∧
    isErrorObject (doPOST "9.9.9.9" "/blacklist/set-interval" Body.malformed
      (St.mk [] 30 false false)).1.body = false ∧
    isDefaultErrorPage (doPOST "9.9.9.9" "/blacklist/set-interval"
      Body.malformed (St.mk [] 30 false false)).1.body = true := by
  exact ⟨rfl, rfl, rfl⟩

/-- C3 (amended): the error bodies classified route by route. Every GET
error response carries the structured JSON error object, and so does the
uniform 403 access-denied response; every POST error response on any path
other than set-interval (the log 400, the unknown-route 404, the 403) is
the JSON error object, while every set-interval error from a non-blocked
caller goes through send_error and carries the default HTML error page;
every DELETE error on a path of the shape blacklist/delete/index (the
non-integer-index 400, the missing-index 404) is the JSON error object,
while every other DELETE path is answered exactly with the send_error HTML
404 page. -/
theorem c3_amended_error_bodies (clientIp path : String) (body : Body)
    (st : St) :
    (400 ≤ (doGET clientIp path st).code →
      isErrorObject (doGET clientIp path st).body = true) ∧
    isErrorObject accessDenied.body = true ∧
    (client_ip_blocked clientIp (load_blacklist (get_blacklist st)) = true →
      (doPOST clientIp path body st).1 = accessDenied) ∧
    (path ≠ "/blacklist/set-interval" →
      400 ≤ (doPOST clientIp path body st).1.code →
      isErrorObject (doPOST clientIp path body st).1.body = true) ∧
    (client_ip_blocked clientIp (load_blacklist (get_blacklist st)) =
        false →
      400 ≤ (doPOST clientIp "/blacklist/set-interval" body st).1.code →
      isDefaultErrorPage
        (doPOST clientIp "/blacklist/set-interval" body st).1.body = true) ∧
    (∀ c, splitSlashes (stripSlashes path) = ["blacklist", "delete", c] →
      400 ≤ (doDELETE clientIp path st).1.code →
      isErrorObject (doDELETE clientIp path st).1.body = true) ∧
    ((¬ ∃ c, splitSlashes (stripSlashes path) =
        ["blacklist", "delete", c]) →
      doDELETE clientIp path st = (sendError 404 "Path not found", st)) := by
  refine ⟨?_, rfl, ?_, ?_, ?_, ?_, ?_⟩
  · intro h
    simp only [doGET] at h ⊢
    split_ifs at h ⊢ <;>
      simp_all [accessDenied, jsonError, isErrorObject]
  · intro hb
    simp [doPOST, hb]
  · intro hpath h
    simp only [doPOST] at h ⊢
    split_ifs at h ⊢
    · rfl
    · simp [force_update] at h
    · simp at h
    · exact logRoute_error_bodies body st h
    · simp at h
    · rfl
  · intro hnb h
    have hroute : doPOST clientIp "/blacklist/set-interval" body st =
        setIntervalRoute body st := by
      simp [doPOST, hnb]
    rw [hroute] at h ⊢
    exact setIntervalRoute_error_bodies body st h
  · intro c hp h
    cases hi : pyIntOfString c with
    | none => simp [doDELETE, hp, hi, jsonError, isErrorObject]
    | some i =>
      cases hd : delete_attack i st.ledger with
      | some led2 =>
        exfalso
        simp [doDELETE, hp, hi, hd] at h
      | none => simp [doDELETE, hp, hi, hd, jsonError, isErrorObject]
  · intro hne
    rcases hp : splitSlashes (stripSlashes path) with
      _ | ⟨a, _ | ⟨b, _ | ⟨c, _ | ⟨d, rest⟩⟩⟩⟩
    · simp [doDELETE, hp]
    · simp [doDELETE, hp]
    · simp [doDELETE, hp]
    · have hab : ¬ (a = "blacklist" ∧ b = "delete") := by
        rintro ⟨rfl, rfl⟩
        exact hne ⟨c, hp⟩
      simp [doDELETE, hp, hab]
    · simp [doDELETE, hp]

/-- C3 (amended) witness: the unknown GET route and the blocked caller get
the JSON error object, an unparseable log body gets the JSON 400, an
unparseable set-interval body gets the HTML 400 page, a non-integer delete
index gets the JSON 400, and a non-matching DELETE path gets the HTML 404
page. -/
theorem c3_amended_error_bodies_witness :
    isErrorObject (doGET "1.2.3.4" "/nope"
      (St.mk [] 30 false false)).body = true ∧
    (doPOST "6.6.6.6" "/blacklist/clear" Body.empty
      (St.mk [[("ip", Json.str "6.6.6.6")]] 30 false false)).1 =
      accessDenied ∧
    isErrorObject (doPOST "1.2.3.4" "/blacklist/log" Body.malformed
      (St.mk [] 30 false false)).1.body = true ∧
    isDefaultErrorPage (doPOST "1.2.3.4" "/blacklist/set-interval"
      Body.malformed (St.mk [] 30 false false)).1.body = true ∧
    isErrorObject (doDELETE "1.2.3.4" "/blacklist/delete/zz"
      (St.mk [] 30 false false)).1.body = true ∧
    doDELETE "1.2.3.4" "/nope" (St.mk [] 30 false false) =
      (sendError 404 "Path not found", St.mk [] 30 false false) :=
  ⟨(c3_amended_error_bodies "1.2.3.4" "/nope" Body.empty
      (St.mk [] 30 false false)).1 (by decide),
   (c3_amended_error_bodies "6.6.6.6" "/blacklist/clear" Body.empty
      (St.mk [[("ip", Json.str "6.6.6.6")]] 30 false false)).2.2.1 rfl,
   (c3_amended_error_bodies "1.2.3.4" "/blacklist/log" Body.malformed
      (St.mk [] 30 false false)).2.2.2.1 (by decide) (by decide),
   (c3_amended_error_bodies "1.2.3.4" "/blacklist/set-interval"
      Body.malformed (St.mk [] 30 false false)).2.2.2.2.1 rfl (by decide),
   (c3_amended_error_bodies "1.2.3.4" "/blacklist/delete/zz" Body.empty
      (St.mk [] 30 false false)).2.2.2.2.2.1 "zz" rfl (by decide),
   (c3_amended_error_bodies "1.2.3.4" "/nope" Body.empty
      (St.mk [] 30 false false)).2.2.2.2.2.2
     (by
       rintro ⟨c, hc⟩
       have h1 : (splitSlashes (stripSlashes "/nope")).length = 1 := rfl
       rw [hc] at h1
       simp at h1)⟩

end BlacklistServer
